import Mathlib

/-
Verification of the declarative plot-specification resolver in
velociraptor/autoplotter/objects.py.

The embedding mirrors the source closely:
  - a raw YAML configuration entry becomes PlotData / AxisData, where an
    absent key is modelled as none;
  - the VelociraptorPlot object is a record whose fields start unset (none)
    and are filled by the parse routines, exactly as the Python object
    acquires attributes through setattr;
  - Python exceptions become an Except Err monad: Err.missingQuantity and
    Err.unknownPlotType model the two AutoPlotterError raises (carrying the
    data interpolated into their message strings), Err.typeError models the
    TypeError numpy raises when log10 or linspace is applied to None, and
    Err.attributeError models getattr on an attribute that was never set;
  - numeric edge values are kept as exact expression trees (RVal) recording
    the floating-point computation the code performs; RVal.eval interprets
    them in the real numbers for the value-level theorems.
-/

namespace Velociraptor

/-- Exact expression tree for the numeric values the autoplotter computes with
numpy: rational literals, base-10 logarithm and exponential, and field
operations. This records the computation structurally; RVal.eval gives its
real-number meaning. -/
inductive RVal where
  | rat (q : ℚ)
  | log10 (a : RVal)
  | exp10 (a : RVal)
  | add (a b : RVal)
  | sub (a b : RVal)
  | mul (a b : RVal)
  | div (a b : RVal)
deriving DecidableEq, Repr

/-- Real-number interpretation of an RVal expression. -/
noncomputable def RVal.eval : RVal → ℝ
  | rat q => (q : ℝ)
  | log10 a => Real.logb 10 a.eval
  | exp10 a => (10 : ℝ) ^ a.eval
  | add a b => a.eval + b.eval
  | sub a b => a.eval - b.eval
  | mul a b => a.eval * b.eval
  | div a b => a.eval / b.eval

/-- True when the expression contains a base-10 logarithm applied to a
non-positive rational literal: exactly the places where numpy log10 yields
NaN or negative infinity (with only a RuntimeWarning, never an exception). -/
def RVal.hasNonposLog : RVal → Bool
  | rat _ => false
  | log10 (rat q) => decide (q ≤ 0)
  | log10 a => a.hasNonposLog
  | exp10 a => a.hasNonposLog
  | add a b => a.hasNonposLog || b.hasNonposLog
  | sub a b => a.hasNonposLog || b.hasNonposLog
  | mul a b => a.hasNonposLog || b.hasNonposLog
  | div a b => a.hasNonposLog || b.hasNonposLog

/-- numpy.linspace(a, b, n): n samples, the i-th being a + (b-a) * i/(n-1)
(for n = 1 the sample is a, matching the junk value 0 of division by zero;
for n = 0 the list is empty). -/
def linspaceE (a b : RVal) (n : ℕ) : List RVal :=
  (List.range n).map fun (i : ℕ) =>
    RVal.add a (RVal.mul (RVal.sub b a)
      (RVal.div (RVal.rat (i : ℚ)) (RVal.rat (((n : ℤ) - 1 : ℤ) : ℚ))))

/-- numpy.logspace(a, b, n) = 10 ** linspace(a, b, n). -/
def logspaceE (a b : RVal) (n : ℕ) : List RVal :=
  (linspaceE a b n).map RVal.exp10

/-- A unyt_quantity: a scalar value carrying a unit expression; units = none
models the dimensionless unit (units=None in the source). -/
structure UnytQuantity where
  value : ℚ
  units : Option String
deriving DecidableEq, Repr

/-- A unyt_array: a sequence of values carrying one unit expression. -/
structure UnytArray where
  values : List RVal
  units : Option String
deriving DecidableEq, Repr

/-- One axis sub-mapping of a configuration entry. An absent key is none.
The field stop models the key named end in the YAML (end is reserved). -/
structure AxisData where
  quantity : Option String
  units : Option String
  log : Option Bool
  start : Option ℚ
  stop : Option ℚ
  label_override : Option String
deriving DecidableEq, Repr

/-- One raw configuration entry (the value of one named key of the YAML
mapping). The median and mean payloads are opaque to this resolver: they are
handed to the VelociraptorLine collaborator unchanged. -/
structure PlotData where
  type : Option String
  number_of_bins : Option ℕ
  x : Option AxisData
  y : Option AxisData
  median : Option Unit
  mean : Option Unit
deriving DecidableEq, Repr

/-- The coordinate parameter threaded through the per-axis parse routines. -/
inductive Coord where
  | x
  | y
deriving DecidableEq, Repr

/-- The string the source interpolates into messages for a coordinate. -/
def coordName : Coord → String
  | .x => "x"
  | .y => "y"

/-- Lookup self.data[coordinate]. -/
def axis_of (d : PlotData) : Coord → Option AxisData
  | .x => d.x
  | .y => d.y

/-- The exceptions the resolver can raise. missingQuantity c f models
AutoPlotterError with message "You must provide an {c}-quantity and units to
plot for {f}" (objects.py line 78); unknownPlotType t v models
AutoPlotterError with message "Plot type {t} is not valid. Please choose from
{v}." (line 284), whose text contains no entry name and no key name;
typeError models the anonymous TypeError numpy raises when log10 or linspace
receives None; attributeError models getattr on a never-set attribute. -/
inductive Err where
  | missingQuantity (coordinate : String) (filename : String)
  | unknownPlotType (plot_type : String) (valid : List String)
  | typeError
  | attributeError
deriving DecidableEq, Repr

/-- objects.py line 19. Note that the list does not contain "histogram". -/
def valid_plot_types : List String := ["scatter", "2dhistogram", "massfunction"]

/-- objects.py line 20. -/
def valid_line_types : List String := ["median", "mean"]

/-- The VelociraptorPlot object. Every attribute the parse routines may set
is an Option field, none meaning the attribute was never set. The flattened
x field holds none both when unset and when set to None by
set_coordinate_quantity_none; the distinction is never observed after a
successful parse. -/
structure VelociraptorPlot where
  filename : String
  data : PlotData
  plot_type : Option String
  x : Option String
  y : Option String
  x_log : Option Bool
  y_log : Option Bool
  x_units : Option UnytQuantity
  y_units : Option UnytQuantity
  x_lim : Option (Option UnytQuantity × Option UnytQuantity)
  y_lim : Option (Option UnytQuantity × Option UnytQuantity)
  x_label_override : Option (Option String)
  y_label_override : Option (Option String)
  mean_line : Option (Option Unit)
  median_line : Option (Option Unit)
  number_of_bins : Option ℕ
  x_bins : Option UnytArray
  y_bins : Option UnytArray
deriving DecidableEq, Repr

/-- The quantity and units strings of one axis, when both keys resolve; the
try block of _parse_coordinate_quantity succeeds exactly when this is some. -/
def quantity_units_of (d : PlotData) (c : Coord) : Option (String × String) :=
  match axis_of d c with
  | some ax =>
    match ax.quantity, ax.units with
    | some q, some u => some (q, u)
    | _, _ => none
  | none => none

/-- The log flag of one axis: bool(data[c]["log"]) with default True on
KeyError (objects.py lines 119-129). -/
def log_from_data (d : PlotData) (c : Coord) : Bool :=
  ((axis_of d c).bind AxisData.log).getD true

/-- One entry of the limit pair: unyt_quantity(float(data[c][key]),
units=data[c]["units"]), with the KeyError of either lookup caught by the
same handler (objects.py lines 101-115): the entry is none when the key or
the units key (or the whole axis mapping) is absent. -/
def limit_entry (d : PlotData) (c : Coord) (key : AxisData → Option ℚ) : Option UnytQuantity :=
  match (axis_of d c).bind key, (axis_of d c).bind AxisData.units with
  | some v, some u => some ⟨v, some u⟩
  | _, _ => none

/-- The [start, end] limit pair of one axis (objects.py lines 95-117). -/
def limit_from_data (d : PlotData) (c : Coord) :
    Option UnytQuantity × Option UnytQuantity :=
  (limit_entry d c AxisData.start, limit_entry d c AxisData.stop)

/-- The label override of one axis, none on KeyError. -/
def label_from_data (d : PlotData) (c : Coord) : Option String :=
  (axis_of d c).bind AxisData.label_override

/-- _parse_coordinate_quantity (objects.py lines 66-82): sets self.{c} and
self.{c}_units, raising AutoPlotterError naming the coordinate and the
filename when the quantity or units key is missing. -/
def parse_coordinate_quantity (c : Coord) (st : VelociraptorPlot) :
    Except Err VelociraptorPlot :=
  match quantity_units_of st.data c with
  | some (q, u) =>
    match c with
    | .x => .ok { st with x := some q, x_units := some ⟨1, some u⟩ }
    | .y => .ok { st with y := some q, y_units := some ⟨1, some u⟩ }
  | none => .error (.missingQuantity (coordName c) st.filename)

/-- _set_coordinate_quantity_none (objects.py lines 84-93): quantity None,
units dimensionless. -/
def set_coordinate_quantity_none (c : Coord) (st : VelociraptorPlot) :
    VelociraptorPlot :=
  match c with
  | .x => { st with x := none, x_units := some ⟨1, none⟩ }
  | .y => { st with y := none, y_units := some ⟨1, none⟩ }

/-- _parse_coordinate_log (objects.py lines 119-129). -/
def parse_coordinate_log (c : Coord) (st : VelociraptorPlot) : VelociraptorPlot :=
  match c with
  | .x => { st with x_log := some (log_from_data st.data .x) }
  | .y => { st with y_log := some (log_from_data st.data .y) }

/-- _parse_coordinate_limit (objects.py lines 95-117). -/
def parse_coordinate_limit (c : Coord) (st : VelociraptorPlot) : VelociraptorPlot :=
  match c with
  | .x => { st with x_lim := some (limit_from_data st.data .x) }
  | .y => { st with y_lim := some (limit_from_data st.data .y) }

/-- _parse_coordinate_label_override (objects.py lines 131-145). -/
def parse_coordinate_label_override (c : Coord) (st : VelociraptorPlot) :
    VelociraptorPlot :=
  match c with
  | .x => { st with x_label_override := some (label_from_data st.data .x) }
  | .y => { st with y_label_override := some (label_from_data st.data .y) }

/-- _parse_line (objects.py lines 147-161): the {line_type}_line attribute is
the VelociraptorLine built from the payload when the key is present, None on
KeyError. -/
def parse_line (line_type : String) (st : VelociraptorPlot) : VelociraptorPlot :=
  if line_type = "median" then { st with median_line := some st.data.median }
  else if line_type = "mean" then { st with mean_line := some st.data.mean }
  else st

/-- _parse_lines (objects.py lines 163-171): one _parse_line per entry of
valid_line_types. -/
def parse_lines (st : VelociraptorPlot) : VelociraptorPlot :=
  valid_line_types.foldl (fun s lt => parse_line lt s) st

/-- _parse_number_of_bins (objects.py lines 173-183): default 128. -/
def parse_number_of_bins (st : VelociraptorPlot) : VelociraptorPlot :=
  { st with number_of_bins := some (st.data.number_of_bins.getD 128) }

/-- The unyt_array of bin edges built at objects.py lines 193-207:
logspace(log10(start), log10(end), number_of_bins) with units start.units in
the log case, linspace(start, end, number_of_bins) otherwise. Note the third
numpy argument is the number of samples, so the array has number_of_bins
entries. -/
def mk_bins (lg : Bool) (s e : UnytQuantity) (n : ℕ) : UnytArray :=
  if lg then
    ⟨logspaceE (RVal.log10 (RVal.rat s.value)) (RVal.log10 (RVal.rat e.value)) n, s.units⟩
  else
    ⟨linspaceE (RVal.rat s.value) (RVal.rat e.value) n, s.units⟩

/-- getattr(self, f"{coordinate}_lim"). -/
def lim_get (c : Coord) (st : VelociraptorPlot) :
    Option (Option UnytQuantity × Option UnytQuantity) :=
  match c with
  | .x => st.x_lim
  | .y => st.y_lim

/-- getattr(self, f"{coordinate}_log"). -/
def log_get (c : Coord) (st : VelociraptorPlot) : Option Bool :=
  match c with
  | .x => st.x_log
  | .y => st.y_log

/-- setattr(self, f"{coordinate}_bins", b). -/
def bins_set (c : Coord) (b : UnytArray) (st : VelociraptorPlot) : VelociraptorPlot :=
  match c with
  | .x => { st with x_bins := some b }
  | .y => { st with y_bins := some b }

/-- _parse_coordinate_histogram_bin (objects.py lines 185-209). Reads the
limit pair and the log flag (AttributeError if never set; unreachable through
the public pipeline); when either limit entry is None, numpy log10 or
linspace raises TypeError; otherwise the bins are built with no further
validation (in particular no positivity check of the lower bound in the log
case). -/
def parse_coordinate_histogram_bin (c : Coord) (st : VelociraptorPlot) :
    Except Err VelociraptorPlot :=
  match lim_get c st with
  | none => .error .attributeError
  | some (lo, hi) =>
    match log_get c st with
    | none => .error .attributeError
    | some lg =>
      match lo, hi with
      | some s, some e =>
        match st.number_of_bins with
        | none => .error .attributeError
        | some n => .ok (bins_set c (mk_bins lg s e n) st)
      | _, _ => .error .typeError

/-- _parse_scatter (objects.py lines 211-224): for each coordinate quantity,
log, limit, label override; then the overlay lines. -/
def parse_scatter (st : VelociraptorPlot) : Except Err VelociraptorPlot := do
  let st1 ← parse_coordinate_quantity .x st
  let st2 := parse_coordinate_label_override .x
    (parse_coordinate_limit .x (parse_coordinate_log .x st1))
  let st3 ← parse_coordinate_quantity .y st2
  let st4 := parse_coordinate_label_override .y
    (parse_coordinate_limit .y (parse_coordinate_log .y st3))
  return parse_lines st4

/-- _parse_2dhistogram (objects.py lines 226-241): everything of the scatter,
then the bin count and the bins of both axes. -/
def parse_2dhistogram (st : VelociraptorPlot) : Except Err VelociraptorPlot := do
  let st1 ← parse_scatter st
  let st2 := parse_number_of_bins st1
  let st3 ← parse_coordinate_histogram_bin .x st2
  parse_coordinate_histogram_bin .y st3

/-- _parse_massfunction (objects.py lines 243-260): x quantity, degenerate y,
log and limit and label for both coordinates, bin count, x bins only. -/
def parse_massfunction (st : VelociraptorPlot) : Except Err VelociraptorPlot := do
  let st1 ← parse_coordinate_quantity .x st
  let st2 := set_coordinate_quantity_none .y st1
  let st3 := parse_coordinate_label_override .x
    (parse_coordinate_limit .x (parse_coordinate_log .x st2))
  let st4 := parse_coordinate_label_override .y
    (parse_coordinate_limit .y (parse_coordinate_log .y st3))
  let st5 := parse_number_of_bins st4
  parse_coordinate_histogram_bin .x st5

/-- _parse_histogram (objects.py lines 262-270): same as the mass function.
This handler exists in the source but is unreachable through _parse_data,
because valid_plot_types does not contain "histogram". -/
def parse_histogram (st : VelociraptorPlot) : Except Err VelociraptorPlot :=
  parse_massfunction st

/-- _parse_data (objects.py lines 272-290): default the type to scatter,
reject a type outside valid_plot_types with AutoPlotterError, then dispatch
to the per-type parser named _parse_{type}. -/
def parse_data (st : VelociraptorPlot) : Except Err VelociraptorPlot :=
  let pt := st.data.type.getD "scatter"
  let st1 := { st with plot_type := some pt }
  if pt ∈ valid_plot_types then
    if pt = "scatter" then parse_scatter st1
    else if pt = "2dhistogram" then parse_2dhistogram st1
    else parse_massfunction st1
  else .error (.unknownPlotType pt valid_plot_types)

/-- The freshly constructed object, before _parse_data: only filename and
data are set. -/
def mkInitial (fn : String) (d : PlotData) : VelociraptorPlot :=
  ⟨fn, d, none, none, none, none, none, none, none, none, none, none, none,
   none, none, none, none, none⟩

/-- VelociraptorPlot.__init__ (objects.py lines 55-64): store filename and
data, then _parse_data. -/
def VelociraptorPlot.init (fn : String) (d : PlotData) : Except Err VelociraptorPlot :=
  parse_data (mkInitial fn d)

/-- AutoPlotter.parse_yaml (objects.py lines 437-447): a list comprehension
building one VelociraptorPlot per named entry in declaration order; the first
raising constructor aborts the comprehension and the exception propagates,
discarding all previously built objects. -/
def parse_yaml : List (String × PlotData) → Except Err (List VelociraptorPlot)
  | [] => .ok []
  | (fn, d) :: rest => do
    let p ← VelociraptorPlot.init fn d
    let ps ← parse_yaml rest
    return p :: ps

/-- unyt convert_to_units as an in-place multiplication by the conversion
factor between the current and the target unit; factor is the unit-system
collaborator, with factor u u = 1 (converting a quantity to its own unit is
the identity). -/
def convert_to_units (arr : UnytArray) (target : Option String)
    (factor : Option String → Option String → ℚ) : UnytArray :=
  ⟨arr.values.map fun v => RVal.mul v (RVal.rat (factor arr.units target)), target⟩

/-- The effect of make_plot (objects.py lines 387-402) on the descriptor
fields. The scatter path reads descriptor fields only; the 2dhistogram path
(lines 330-357) converts x_bins and y_bins in place to x_units and y_units;
the massfunction path (lines 359-385) converts x_bins in place. Catalogue
series, figures and files do not live on the descriptor and are outside this
state. -/
def make_plot (factor : Option String → Option String → ℚ)
    (st : VelociraptorPlot) : Except Err VelociraptorPlot :=
  match st.plot_type with
  | some "scatter" => .ok st
  | some "2dhistogram" =>
    match st.x_bins, st.x_units, st.y_bins, st.y_units with
    | some xb, some xu, some yb, some yu =>
      .ok { st with x_bins := some (convert_to_units xb xu.units factor),
                    y_bins := some (convert_to_units yb yu.units factor) }
    | _, _, _, _ => .error .attributeError
  | some "massfunction" =>
    match st.x_bins, st.x_units with
    | some xb, some xu =>
      .ok { st with x_bins := some (convert_to_units xb xu.units factor) }
    | _, _ => .error .attributeError
  | _ => .error .attributeError

/- Concrete configuration entries, descriptor states and bin arrays used by
the closed counterexample and witness theorems below. -/

/- Concrete configuration entries used by the closed counterexample and
witness theorems. -/

def axC1 : AxisData := ⟨some "masses.mass_200crit", some "Solar_Mass", some true, some 1, some 100, none⟩
def cfgC1 : PlotData := ⟨some "massfunction", some 2, some axC1, none, none, none⟩
def axC1w : AxisData := ⟨some "masses.mass_200crit", some "Solar_Mass", some false, some 0, some 10, none⟩
def cfgC1w : PlotData := ⟨some "massfunction", some 4, some axC1w, none, none, none⟩
def binsC1w : UnytArray := mk_bins false ⟨0, some "Solar_Mass"⟩ ⟨10, some "Solar_Mass"⟩ 4
def stC1w : VelociraptorPlot :=
  ⟨"halo_masses", cfgC1w, some "massfunction", some "masses.mass_200crit", none,
   some false, some true, some ⟨1, some "Solar_Mass"⟩, some ⟨1, none⟩,
   some (some ⟨0, some "Solar_Mass"⟩, some ⟨10, some "Solar_Mass"⟩), some (none, none),
   some none, some none, none, none, some 4, some binsC1w, none⟩

def axC2 : AxisData := ⟨some "masses.mass_star", some "Solar_Mass", some true, some 1, some 100, none⟩
def cfgC2 : PlotData := ⟨some "histogram", none, some axC2, none, none, none⟩

def axC3x : AxisData := ⟨some "masses.mass_200crit", some "Solar_Mass", some true, some 1, none, none⟩
def axC3y : AxisData := ⟨some "masses.mass_star", some "Solar_Mass", some true, some 1, some 100, none⟩
def cfgC3 : PlotData := ⟨some "2dhistogram", none, some axC3x, some axC3y, none, none⟩
def axC3wx : AxisData := ⟨some "masses.mass_gas", some "Solar_Mass", some false, none, some 50, none⟩
def cfgC3w : PlotData := ⟨some "2dhistogram", some 16, some axC3wx, some axC3y, none, none⟩

def axC4 : AxisData := ⟨some "masses.mass_200crit", some "Solar_Mass", some false, some 0, some 10, none⟩
def cfgC4good : PlotData := ⟨some "massfunction", some 3, some axC4, none, none, none⟩
def cfgC4missing : PlotData := ⟨some "massfunction", none, none, none, none, none⟩
def cfgC4unknown : PlotData := ⟨some "polar", none, none, none, none, none⟩

def axC6 : AxisData := ⟨some "masses.mass_200crit", some "Solar_Mass", some true, some 0, some 100, none⟩
def cfgC6 : PlotData := ⟨some "massfunction", some 4, some axC6, none, none, none⟩
def axC6w : AxisData := ⟨some "masses.mass_200crit", some "Solar_Mass", none, some (-5), some 100, none⟩
def cfgC6w : PlotData := ⟨some "massfunction", some 8, some axC6w, none, none, none⟩

def cfgC7 : PlotData := ⟨some "tree", none, none, none, none, none⟩
def cfgC7w : PlotData := ⟨some "heatmap", none, none, none, none, none⟩

def cfgC8a : PlotData := ⟨some "massfunction", none, none, none, none, none⟩
def axC8x : AxisData := ⟨some "masses.mass_200crit", some "Solar_Mass", some true, none, none, none⟩
def axC8y : AxisData := ⟨none, none, some true, none, none, none⟩
def cfgC8b : PlotData := ⟨none, none, some axC8x, some axC8y, none, none⟩

def axC9x : AxisData := ⟨some "masses.mass_200crit", some "Solar_Mass", none, none, none, none⟩
def axC9y : AxisData := ⟨some "masses.mass_star", some "Solar_Mass", none, none, none, none⟩
def cfgC9a : PlotData := ⟨none, none, some axC9x, some axC9y, none, none⟩
def stC9a : VelociraptorPlot :=
  ⟨"scatter_plot", cfgC9a, some "scatter", some "masses.mass_200crit", some "masses.mass_star",
   some true, some true, some ⟨1, some "Solar_Mass"⟩, some ⟨1, some "Solar_Mass"⟩,
   some (none, none), some (none, none), some none, some none, some none, some none,
   none, none, none⟩
def axC9b : AxisData := ⟨some "masses.mass_200crit", some "Solar_Mass", some true, some 1, some 100, none⟩
def cfgC9b : PlotData := ⟨some "massfunction", none, some axC9b, none, none, none⟩
def binsC9b : UnytArray := mk_bins true ⟨1, some "Solar_Mass"⟩ ⟨100, some "Solar_Mass"⟩ 128
def stC9b : VelociraptorPlot :=
  ⟨"mass_fn_default_bins", cfgC9b, some "massfunction", some "masses.mass_200crit", none,
   some true, some true, some ⟨1, some "Solar_Mass"⟩, some ⟨1, none⟩,
   some (some ⟨1, some "Solar_Mass"⟩, some ⟨100, some "Solar_Mass"⟩), some (none, none),
   some none, some none, none, none, some 128, some binsC9b, none⟩

def axC10x : AxisData := ⟨some "masses.mass_200crit", some "Solar_Mass", some true, some 1, some 100, none⟩
def axC10y : AxisData := ⟨none, none, none, some 5, none, none⟩
def cfgC10 : PlotData := ⟨some "massfunction", some 4, some axC10x, some axC10y, none, none⟩

/-- Value-level equality of two optional bin arrays: same units and same
real-number entries. -/
def bins_equiv (a b : Option UnytArray) : Prop :=
  a.map UnytArray.units = b.map UnytArray.units ∧
  a.map (fun arr => arr.values.map RVal.eval) = b.map (fun arr => arr.values.map RVal.eval)

def factor1 : Option String → Option String → ℚ := fun _ _ => 1
def axC5 : AxisData := ⟨some "masses.mass_200crit", some "Solar_Mass", some false, some 0, some 10, none⟩
def cfgC5 : PlotData := ⟨some "massfunction", some 3, some axC5, none, none, none⟩
def binsC5 : UnytArray := mk_bins false ⟨0, some "Solar_Mass"⟩ ⟨10, some "Solar_Mass"⟩ 3
def binsC5r : UnytArray := convert_to_units binsC5 (some "Solar_Mass") factor1
def stC5 : VelociraptorPlot :=
  ⟨"mass_fn", cfgC5, some "massfunction", some "masses.mass_200crit", none,
   some false, some true, some ⟨1, some "Solar_Mass"⟩, some ⟨1, none⟩,
   some (some ⟨0, some "Solar_Mass"⟩, some ⟨10, some "Solar_Mass"⟩), some (none, none),
   some none, some none, none, none, some 3, some binsC5, none⟩
def stC5r : VelociraptorPlot := { stC5 with x_bins := some binsC5r }

/- Characterizations of the three successful parse paths, and supporting
lemmas about limits, units and bins. -/

/-- Characterization of a successful massfunction parse. -/
theorem init_ok_massfunction {fn : String} {d : PlotData} {st : VelociraptorPlot}
    (ht : d.type.getD "scatter" = "massfunction")
    (h : VelociraptorPlot.init fn d = .ok st) :
    ∃ q u s e, quantity_units_of d .x = some (q, u) ∧
      limit_from_data d .x = (some s, some e) ∧
      st = ⟨fn, d, some "massfunction", some q, none,
            some (log_from_data d .x), some (log_from_data d .y),
            some ⟨1, some u⟩, some ⟨1, none⟩,
            some (limit_from_data d .x), some (limit_from_data d .y),
            some (label_from_data d .x), some (label_from_data d .y),
            none, none, some (d.number_of_bins.getD 128),
            some (mk_bins (log_from_data d .x) s e (d.number_of_bins.getD 128)),
            none⟩ := by
  unfold VelociraptorPlot.init parse_data at h
  simp only [mkInitial] at h
  rw [ht] at h
  simp only [valid_plot_types, List.mem_cons, List.not_mem_nil, or_false,
    String.reduceEq, false_or, or_self, if_true, if_false, reduceIte] at h
  rcases hq : quantity_units_of d .x with - | ⟨q, u⟩ <;>
    rcases hlim : limit_from_data d .x with ⟨lo, hi⟩
  · simp [parse_massfunction, parse_coordinate_quantity, hq, Bind.bind, Except.bind] at h
  · rcases lo with - | s <;> rcases hi with - | e <;>
      simp only [parse_massfunction, parse_coordinate_quantity, hq,
        set_coordinate_quantity_none, parse_coordinate_log, parse_coordinate_limit,
        parse_coordinate_label_override, parse_number_of_bins,
        parse_coordinate_histogram_bin, lim_get, log_get, bins_set, hlim,
        Bind.bind, Except.bind, Except.ok.injEq] at h
    · exact absurd h (by simp)
    · exact absurd h (by simp)
    · exact absurd h (by simp)
    · exact ⟨q, u, s, e, rfl, rfl, by rw [← h]⟩

/-- Characterization of a successful scatter parse. -/
theorem init_ok_scatter {fn : String} {d : PlotData} {st : VelociraptorPlot}
    (ht : d.type.getD "scatter" = "scatter")
    (h : VelociraptorPlot.init fn d = .ok st) :
    ∃ qx ux qy uy, quantity_units_of d .x = some (qx, ux) ∧
      quantity_units_of d .y = some (qy, uy) ∧
      st = ⟨fn, d, some "scatter", some qx, some qy,
            some (log_from_data d .x), some (log_from_data d .y),
            some ⟨1, some ux⟩, some ⟨1, some uy⟩,
            some (limit_from_data d .x), some (limit_from_data d .y),
            some (label_from_data d .x), some (label_from_data d .y),
            some d.mean, some d.median, none, none, none⟩ := by
  unfold VelociraptorPlot.init parse_data at h
  simp only [mkInitial] at h
  rw [ht] at h
  simp only [valid_plot_types, List.mem_cons, List.not_mem_nil, or_false,
    String.reduceEq, false_or, or_self, if_true, if_false, reduceIte] at h
  rcases hqx : quantity_units_of d .x with - | ⟨qx, ux⟩ <;>
    rcases hqy : quantity_units_of d .y with - | ⟨qy, uy⟩ <;>
    simp only [parse_scatter, parse_coordinate_quantity, hqx, hqy,
      parse_coordinate_log, parse_coordinate_limit, parse_coordinate_label_override,
      parse_lines, parse_line, valid_line_types, List.foldl_cons, List.foldl_nil,
      String.reduceEq, if_true, if_false, reduceIte,
      Bind.bind, Except.bind, pure, Except.pure, Except.ok.injEq] at h
  · exact absurd h (by simp)
  · exact absurd h (by simp)
  · exact absurd h (by simp)
  · exact ⟨qx, ux, qy, uy, rfl, rfl, by rw [← h]⟩

/-- Characterization of a successful 2dhistogram parse. -/
theorem init_ok_2dhistogram {fn : String} {d : PlotData} {st : VelociraptorPlot}
    (ht : d.type.getD "scatter" = "2dhistogram")
    (h : VelociraptorPlot.init fn d = .ok st) :
    ∃ qx ux qy uy sx ex sy ey,
      quantity_units_of d .x = some (qx, ux) ∧
      quantity_units_of d .y = some (qy, uy) ∧
      limit_from_data d .x = (some sx, some ex) ∧
      limit_from_data d .y = (some sy, some ey) ∧
      st = ⟨fn, d, some "2dhistogram", some qx, some qy,
            some (log_from_data d .x), some (log_from_data d .y),
            some ⟨1, some ux⟩, some ⟨1, some uy⟩,
            some (limit_from_data d .x), some (limit_from_data d .y),
            some (label_from_data d .x), some (label_from_data d .y),
            some d.mean, some d.median, some (d.number_of_bins.getD 128),
            some (mk_bins (log_from_data d .x) sx ex (d.number_of_bins.getD 128)),
            some (mk_bins (log_from_data d .y) sy ey (d.number_of_bins.getD 128))⟩ := by
  unfold VelociraptorPlot.init parse_data at h
  simp only [mkInitial] at h
  rw [ht] at h
  simp only [valid_plot_types, List.mem_cons, List.not_mem_nil, or_false,
    String.reduceEq, false_or, or_self, if_true, if_false, reduceIte] at h
  rcases hqx : quantity_units_of d .x with - | ⟨qx, ux⟩ <;>
    rcases hqy : quantity_units_of d .y with - | ⟨qy, uy⟩ <;>
    rcases hlx : limit_from_data d .x with ⟨lox, hix⟩ <;>
    rcases hly : limit_from_data d .y with ⟨loy, hiy⟩ <;>
    [skip; skip; skip; (rcases lox with - | sx <;> rcases hix with - | ex <;>
      rcases loy with - | sy <;> rcases hiy with - | ey)] <;>
    simp only [parse_2dhistogram, parse_scatter, parse_coordinate_quantity, hqx, hqy,
      parse_coordinate_log, parse_coordinate_limit, parse_coordinate_label_override,
      parse_lines, parse_line, valid_line_types, List.foldl_cons, List.foldl_nil,
      parse_number_of_bins, parse_coordinate_histogram_bin, lim_get, log_get,
      bins_set, hlx, hly, String.reduceEq, if_true, if_false, reduceIte,
      Bind.bind, Except.bind, pure, Except.pure, Except.ok.injEq] at h
  · exact absurd h (by simp)
  · exact absurd h (by simp)
  · exact absurd h (by simp)
  all_goals first
    | exact absurd h (by simp)
    | exact ⟨qx, ux, qy, uy, sx, ex, sy, ey, rfl, rfl, rfl, rfl, by rw [← h]⟩

/-- A successful parse restricts the resolved plot type to the three valid
strings. -/
theorem init_ok_type_cases {fn : String} {d : PlotData} {st : VelociraptorPlot}
    (h : VelociraptorPlot.init fn d = .ok st) :
    d.type.getD "scatter" = "scatter" ∨ d.type.getD "scatter" = "2dhistogram" ∨
      d.type.getD "scatter" = "massfunction" := by
  by_cases hm : d.type.getD "scatter" ∈ valid_plot_types
  · simpa [valid_plot_types] using hm
  · unfold VelociraptorPlot.init parse_data at h
    simp only [mkInitial] at h
    rw [if_neg hm] at h
    exact absurd h (by simp)

/-- The bin-edge array always has number_of_bins entries (not one more). -/
theorem mk_bins_length (lg : Bool) (s e : UnytQuantity) (n : ℕ) :
    (mk_bins lg s e n).values.length = n := by
  cases lg <;>
    simp only [mk_bins, logspaceE, linspaceE, if_true, if_false, Bool.false_eq_true,
      reduceIte, List.length_map, List.length_range]

/-- The bin-edge array carries the units of the lower limit quantity. -/
theorem mk_bins_units (lg : Bool) (s e : UnytQuantity) (n : ℕ) :
    (mk_bins lg s e n).units = s.units := by
  cases lg <;> simp [mk_bins]

/-- A resolved limit entry carries the units string of its axis mapping. -/
theorem limit_entry_units {d : PlotData} {c : Coord} {key : AxisData → Option ℚ}
    {s : UnytQuantity} (h : limit_entry d c key = some s) :
    ∃ u, s.units = some u ∧ (axis_of d c).bind AxisData.units = some u := by
  unfold limit_entry at h
  rcases h1 : (axis_of d c).bind key with - | v <;>
    rcases h2 : (axis_of d c).bind AxisData.units with - | u <;>
    rw [h1, h2] at h <;> simp at h
  exact ⟨u, by rw [← h], rfl⟩

/-- A resolved quantity carries the units string of its axis mapping. -/
theorem quantity_units_of_units {d : PlotData} {c : Coord} {q u : String}
    (h : quantity_units_of d c = some (q, u)) :
    (axis_of d c).bind AxisData.units = some u := by
  unfold quantity_units_of at h
  rcases hax : axis_of d c with - | ax <;> rw [hax] at h
  · exact absurd h (by simp)
  · rcases hq : ax.quantity with - | q0 <;> rcases hu : ax.units with - | u0 <;>
      simp [hq, hu] at h
    simp [hu, h.2]

/-- The lower bin limit has the same units string as the resolved axis unit. -/
theorem limit_units_match {d : PlotData} {c : Coord} {s : UnytQuantity}
    {hi : Option UnytQuantity} {q u : String}
    (h1 : limit_from_data d c = (some s, hi)) (h2 : quantity_units_of d c = some (q, u)) :
    s.units = some u := by
  have e1 : limit_entry d c AxisData.start = some s := by
    have := congrArg Prod.fst h1
    simpa [limit_from_data] using this
  rcases limit_entry_units e1 with ⟨u0, hsu, hax⟩
  rw [hsu]
  exact hax.symm.trans (quantity_units_of_units h2)

/-- Direct evaluation of a massfunction parse whose x axis resolves. -/
theorem init_massfunction_eq {fn : String} {d : PlotData} {q u : String}
    {s e : UnytQuantity}
    (ht : d.type.getD "scatter" = "massfunction")
    (hq : quantity_units_of d .x = some (q, u))
    (hl : limit_from_data d .x = (some s, some e)) :
    VelociraptorPlot.init fn d =
      .ok ⟨fn, d, some "massfunction", some q, none,
        some (log_from_data d .x), some (log_from_data d .y),
        some ⟨1, some u⟩, some ⟨1, none⟩,
        some (limit_from_data d .x), some (limit_from_data d .y),
        some (label_from_data d .x), some (label_from_data d .y),
        none, none, some (d.number_of_bins.getD 128),
        some (mk_bins (log_from_data d .x) s e (d.number_of_bins.getD 128)),
        none⟩ := by
  unfold VelociraptorPlot.init parse_data
  simp only [mkInitial]
  rw [ht]
  simp only [valid_plot_types, List.mem_cons, List.not_mem_nil, or_false,
    String.reduceEq, false_or, or_self, if_true, if_false, reduceIte]
  simp only [parse_massfunction, parse_coordinate_quantity, hq,
    set_coordinate_quantity_none, parse_coordinate_log, parse_coordinate_limit,
    parse_coordinate_label_override, parse_number_of_bins,
    parse_coordinate_histogram_bin, lim_get, log_get, bins_set, hl,
    Bind.bind, Except.bind]

/-- A 2dhistogram parse with a resolvable scatter part but an incomplete x
limit pair evaluates to the anonymous TypeError. -/
theorem init_2dhistogram_typeError_x {fn : String} {d : PlotData}
    {qx ux qy uy : String}
    (ht : d.type.getD "scatter" = "2dhistogram")
    (hqx : quantity_units_of d .x = some (qx, ux))
    (hqy : quantity_units_of d .y = some (qy, uy))
    (hbad : (limit_from_data d .x).1 = none ∨ (limit_from_data d .x).2 = none) :
    VelociraptorPlot.init fn d = .error .typeError := by
  unfold VelociraptorPlot.init parse_data
  simp only [mkInitial]
  rw [ht]
  simp only [valid_plot_types, List.mem_cons, List.not_mem_nil, or_false,
    String.reduceEq, false_or, or_self, if_true, if_false, reduceIte]
  rcases hlx : limit_from_data d .x with ⟨lo, hi⟩
  rw [hlx] at hbad
  simp only [] at hbad
  rcases lo with - | sx <;> rcases hi with - | ex <;>
    simp only [parse_2dhistogram, parse_scatter, parse_coordinate_quantity, hqx, hqy,
      parse_coordinate_log, parse_coordinate_limit, parse_coordinate_label_override,
      parse_lines, parse_line, valid_line_types, List.foldl_cons, List.foldl_nil,
      parse_number_of_bins, parse_coordinate_histogram_bin, lim_get, log_get,
      bins_set, hlx, String.reduceEq, if_true, if_false, reduceIte,
      Bind.bind, Except.bind, pure, Except.pure] at hbad ⊢
  simp at hbad

/-- A 2dhistogram parse with a complete x limit pair but an incomplete y
limit pair evaluates to the anonymous TypeError. -/
theorem init_2dhistogram_typeError_y {fn : String} {d : PlotData}
    {qx ux qy uy : String} {sx ex : UnytQuantity}
    (ht : d.type.getD "scatter" = "2dhistogram")
    (hqx : quantity_units_of d .x = some (qx, ux))
    (hqy : quantity_units_of d .y = some (qy, uy))
    (hlx : limit_from_data d .x = (some sx, some ex))
    (hbad : (limit_from_data d .y).1 = none ∨ (limit_from_data d .y).2 = none) :
    VelociraptorPlot.init fn d = .error .typeError := by
  unfold VelociraptorPlot.init parse_data
  simp only [mkInitial]
  rw [ht]
  simp only [valid_plot_types, List.mem_cons, List.not_mem_nil, or_false,
    String.reduceEq, false_or, or_self, if_true, if_false, reduceIte]
  rcases hly : limit_from_data d .y with ⟨lo, hi⟩
  rw [hly] at hbad
  simp only [] at hbad
  rcases lo with - | sy <;> rcases hi with - | ey <;>
    simp only [parse_2dhistogram, parse_scatter, parse_coordinate_quantity, hqx, hqy,
      parse_coordinate_log, parse_coordinate_limit, parse_coordinate_label_override,
      parse_lines, parse_line, valid_line_types, List.foldl_cons, List.foldl_nil,
      parse_number_of_bins, parse_coordinate_histogram_bin, lim_get, log_get,
      bins_set, hlx, hly, String.reduceEq, if_true, if_false, reduceIte,
      Bind.bind, Except.bind, pure, Except.pure] at hbad ⊢
  simp at hbad

/-- If the x axis of any valid plot type does not resolve a quantity and
units pair, construction fails naming the x coordinate and the filename. -/
theorem init_x_missing {fn : String} {d : PlotData}
    (hmem : d.type.getD "scatter" ∈ valid_plot_types)
    (hqx : quantity_units_of d .x = none) :
    VelociraptorPlot.init fn d = .error (.missingQuantity "x" fn) := by
  have hc : d.type.getD "scatter" = "scatter" ∨ d.type.getD "scatter" = "2dhistogram" ∨
      d.type.getD "scatter" = "massfunction" := by simpa [valid_plot_types] using hmem
  unfold VelociraptorPlot.init parse_data
  simp only [mkInitial]
  rcases hc with ht | ht | ht <;> rw [ht] <;>
    simp [valid_plot_types, parse_scatter, parse_2dhistogram, parse_massfunction,
      parse_coordinate_quantity, hqx, coordName, Bind.bind, Except.bind]

/-- If the x axis resolves but the y axis does not, the scatter and
2dhistogram parses fail naming the y coordinate and the filename. -/
theorem init_y_missing {fn : String} {d : PlotData} {qx ux : String}
    (ht : d.type.getD "scatter" = "scatter" ∨ d.type.getD "scatter" = "2dhistogram")
    (hqx : quantity_units_of d .x = some (qx, ux))
    (hqy : quantity_units_of d .y = none) :
    VelociraptorPlot.init fn d = .error (.missingQuantity "y" fn) := by
  unfold VelociraptorPlot.init parse_data
  simp only [mkInitial]
  rcases ht with ht | ht <;> rw [ht] <;>
    simp [valid_plot_types, parse_scatter, parse_2dhistogram,
      parse_coordinate_quantity, hqx, hqy, coordName,
      parse_coordinate_log, parse_coordinate_limit, parse_coordinate_label_override,
      Bind.bind, Except.bind]

/-- Converting a bin array in place to the unit it already carries keeps
its units and its real-number values. -/
theorem convert_self_equiv (factor : Option String → Option String → ℚ)
    (hfac : ∀ t, factor t t = 1) {xb : UnytArray} {u : String}
    (hxu : xb.units = some u) :
    bins_equiv (some (convert_to_units xb (some u) factor)) (some xb) := by
  constructor
  · simp [convert_to_units, hxu]
  · simp [convert_to_units, hxu, hfac, List.map_map, Function.comp, RVal.eval]

/-- C5 (confirmed): rendering a successfully parsed descriptor leaves every
descriptor field at its construction-time value: all fields other than the
bins are untouched, and the in-place unit conversion of the stored bin
arrays converts them to the unit they already carry, leaving units and
real values unchanged (the conversion factor of a unit to itself is 1). -/
theorem c5_descriptor_unchanged :
    ∀ (factor : Option String → Option String → ℚ), (∀ t, factor t t = 1) →
    ∀ (fn : String) (d : PlotData) (st rendered : VelociraptorPlot),
    VelociraptorPlot.init fn d = .ok st →
    make_plot factor st = .ok rendered →
    ({ rendered with x_bins := st.x_bins, y_bins := st.y_bins } = st ∧
      bins_equiv rendered.x_bins st.x_bins ∧ bins_equiv rendered.y_bins st.y_bins) := by
  intro factor hfac fn d st rendered hparse hrender
  rcases init_ok_type_cases hparse with ht | ht | ht
  · rcases init_ok_scatter ht hparse with ⟨qx, ux, qy, uy, hqx, hqy, hst⟩
    subst hst
    have h2 : _ = rendered := Except.ok.inj hrender
    subst h2
    exact ⟨rfl, ⟨rfl, rfl⟩, ⟨rfl, rfl⟩⟩
  · rcases init_ok_2dhistogram ht hparse with
      ⟨qx, ux, qy, uy, sx, ex, sy, ey, hqx, hqy, hlx, hly, hst⟩
    subst hst
    have hxu : (mk_bins (log_from_data d .x) sx ex (d.number_of_bins.getD 128)).units =
        some ux := (mk_bins_units _ _ _ _).trans (limit_units_match hlx hqx)
    have hyu : (mk_bins (log_from_data d .y) sy ey (d.number_of_bins.getD 128)).units =
        some uy := (mk_bins_units _ _ _ _).trans (limit_units_match hly hqy)
    have h2 : _ = rendered := Except.ok.inj hrender
    subst h2
    exact ⟨rfl, convert_self_equiv factor hfac hxu, convert_self_equiv factor hfac hyu⟩
  · rcases init_ok_massfunction ht hparse with ⟨q, u, s, e, hq, hl, hst⟩
    subst hst
    have hxu : (mk_bins (log_from_data d .x) s e (d.number_of_bins.getD 128)).units =
        some u := (mk_bins_units _ _ _ _).trans (limit_units_match hl hq)
    have h2 : _ = rendered := Except.ok.inj hrender
    subst h2
    exact ⟨rfl, convert_self_equiv factor hfac hxu, ⟨rfl, rfl⟩⟩

/-- C5 (witness): the theorem applied to a concrete massfunction descriptor
and the state make_plot leaves behind. -/
theorem c5_witness :
    ({ stC5r with x_bins := stC5.x_bins, y_bins := stC5.y_bins } = stC5 ∧
      bins_equiv stC5r.x_bins stC5.x_bins ∧ bins_equiv stC5r.y_bins stC5.y_bins) :=
  c5_descriptor_unchanged factor1 (fun _ => rfl) "mass_fn" cfgC5 stC5 stC5r rfl rfl

/-- When an axis mapping has no units key, both limit entries resolve to
none, whatever start and end keys it has. -/
theorem limit_none_of_units_none {d : PlotData} {c : Coord} {ax : AxisData}
    (hax : axis_of d c = some ax) (hu : ax.units = none) :
    limit_from_data d c = (none, none) := by
  unfold limit_from_data limit_entry
  rw [hax]
  rcases h1 : ax.start with - | v <;> rcases h2 : ax.stop with - | w <;>
    simp [h1, h2, hu]

/-- A log-scaled bin array built from a non-positive lower bound contains a
log10 of a non-positive literal (NaN or negative infinity in floating
point). -/
theorem mk_bins_log_any_nonpos {s e : UnytQuantity} {n : ℕ}
    (hs : s.value ≤ 0) (hn : 1 ≤ n) :
    (mk_bins true s e n).values.any RVal.hasNonposLog = true := by
  simp only [mk_bins, if_true, reduceIte, logspaceE, linspaceE, List.map_map]
  rw [List.any_eq_true]
  refine ⟨_, List.mem_map.mpr ⟨0, List.mem_range.mpr hn, rfl⟩, ?_⟩
  simp [RVal.hasNonposLog, hs]

/-- C2 (code_bug): a configuration entry with type histogram is rejected as
an unknown plot type, because valid_plot_types omits "histogram", even
though the source carries a _parse_histogram handler identical to the mass
function one. -/
theorem c2_histogram_rejected :
    VelociraptorPlot.init "stellar_mass_histogram" cfgC2 =
      .error (.unknownPlotType "histogram" valid_plot_types) ∧
    parse_histogram (mkInitial "stellar_mass_histogram" cfgC2) =
      parse_massfunction (mkInitial "stellar_mass_histogram" cfgC2) :=
  ⟨rfl, rfl⟩

/-- C3 (counterexample): a 2dhistogram entry whose x axis has start but
no end fails with the anonymous TypeError, not a named configuration error
(no IncompleteBinRange error exists anywhere in the source). -/
theorem c3_counterexample :
    VelociraptorPlot.init "stellar_mass_vs_halo_mass" cfgC3 = .error .typeError :=
  rfl

/-- C3 (amended): a 2dhistogram entry missing a start or end (or the units
needed to form them) on either axis fails at parse time, but with the
anonymous TypeError raised by the numeric routines, not with a named
IncompleteBinRange error. -/
theorem c3_amended :
    (∀ (fn : String) (d : PlotData) (qx ux qy uy : String),
      d.type.getD "scatter" = "2dhistogram" →
      quantity_units_of d .x = some (qx, ux) →
      quantity_units_of d .y = some (qy, uy) →
      ((limit_from_data d .x).1 = none ∨ (limit_from_data d .x).2 = none) →
      VelociraptorPlot.init fn d = .error .typeError) ∧
    (∀ (fn : String) (d : PlotData) (qx ux qy uy : String) (sx ex : UnytQuantity),
      d.type.getD "scatter" = "2dhistogram" →
      quantity_units_of d .x = some (qx, ux) →
      quantity_units_of d .y = some (qy, uy) →
      limit_from_data d .x = (some sx, some ex) →
      ((limit_from_data d .y).1 = none ∨ (limit_from_data d .y).2 = none) →
      VelociraptorPlot.init fn d = .error .typeError) :=
  ⟨fun _ _ _ _ _ _ ht hqx hqy hbad => init_2dhistogram_typeError_x ht hqx hqy hbad,
   fun _ _ _ _ _ _ _ _ ht hqx hqy hlx hbad =>
     init_2dhistogram_typeError_y ht hqx hqy hlx hbad⟩

/-- C3 (witness): the amended theorem applied to a concrete 2dhistogram
entry whose x axis lacks a start. -/
theorem c3_witness :
    VelociraptorPlot.init "gas_vs_star" cfgC3w = .error .typeError :=
  c3_amended.1 "gas_vs_star" cfgC3w "masses.mass_gas" "Solar_Mass"
    "masses.mass_star" "Solar_Mass" rfl rfl rfl (Or.inl rfl)

/-- C4 (counterexample): two invalid entries; parsing aborts at the first,
returns only its error, surfaces nothing about the second entry and no
descriptors: failures are not collected. -/
theorem c4_counterexample :
    parse_yaml [("first_bad", cfgC4missing), ("second_bad", cfgC4unknown)] =
      .error (.missingQuantity "x" "first_bad") :=
  rfl

/-- C4 (amended): parsing the specification set is fail-fast: whenever every
entry before some entry parses successfully and that entry fails, the whole
parse returns exactly that entry's error, whatever entries follow; no
descriptors and no other failures are returned. -/
theorem c4_amended :
    ∀ (pre : List (String × PlotData)) (nm : String) (bad : PlotData)
      (rest : List (String × PlotData)) (err : Err),
    (∀ p ∈ pre, (VelociraptorPlot.init p.1 p.2).isOk = true) →
    VelociraptorPlot.init nm bad = .error err →
    parse_yaml (pre ++ (nm, bad) :: rest) = .error err := by
  intro pre
  induction pre with
  | nil =>
    intro nm bad rest err hok hbad
    simp [parse_yaml, hbad, Bind.bind, Except.bind]
  | cons p pre ih =>
    rcases p with ⟨pfn, pd⟩
    intro nm bad rest err hok hbad
    have hp := hok (pfn, pd) (List.mem_cons_self (pfn, pd) pre)
    rcases hinit : VelociraptorPlot.init pfn pd with e | stp
    · rw [hinit] at hp
      exact absurd hp (by simp [Except.isOk, Except.toBool])
    · have hrest := ih nm bad rest err
        (fun q hq => hok q (List.mem_cons_of_mem (pfn, pd) hq)) hbad
      simp [parse_yaml, List.cons_append, hinit, hrest, Bind.bind, Except.bind]

/-- C4 (witness): the amended theorem applied to one valid entry followed by
one entry lacking its x quantity. -/
theorem c4_witness :
    parse_yaml [("good_plot", cfgC4good), ("bad_plot", cfgC4missing)] =
      .error (.missingQuantity "x" "bad_plot") :=
  c4_amended [("good_plot", cfgC4good)] "bad_plot" cfgC4missing []
    (.missingQuantity "x" "bad_plot")
    (fun p hp => by
      rcases List.mem_singleton.mp hp with h
      subst h
      rfl)
    rfl

/-- C6 (counterexample): a massfunction entry with a log-scaled x axis and
start = 0 parses successfully; no NonPositiveLogBound error exists and
nothing is raised. -/
theorem c6_counterexample :
    (VelociraptorPlot.init "histogram_from_zero" cfgC6).isOk = true :=
  rfl

/-- C6 (amended): bin construction on a log-scaled axis with a non-positive
lower bound does not fail: it succeeds and stores an edge sequence whose
entries contain the base-10 logarithm of the non-positive bound (NaN or
negative infinity in the floating-point code). -/
theorem c6_amended :
    ∀ (fn : String) (d : PlotData) (q u : String) (s e : UnytQuantity),
    d.type.getD "scatter" = "massfunction" →
    quantity_units_of d .x = some (q, u) →
    limit_from_data d .x = (some s, some e) →
    log_from_data d .x = true →
    s.value ≤ 0 →
    1 ≤ d.number_of_bins.getD 128 →
    (VelociraptorPlot.init fn d).map
      (fun st => st.x_bins.map fun xb => xb.values.any RVal.hasNonposLog) =
      .ok (some true) := by
  intro fn d q u s e ht hq hl hlog hs hn
  rw [init_massfunction_eq ht hq hl]
  show Except.ok (some ((mk_bins (log_from_data d .x) s e
    (d.number_of_bins.getD 128)).values.any RVal.hasNonposLog)) = _
  rw [hlog, mk_bins_log_any_nonpos hs hn]

/-- C6 (witness): the amended theorem applied to a concrete massfunction
entry with lower bound -5 on a log axis (log defaulted to true). -/
theorem c6_witness :
    (VelociraptorPlot.init "log_of_negative" cfgC6w).map
      (fun st => st.x_bins.map fun xb => xb.values.any RVal.hasNonposLog) =
      .ok (some true) :=
  c6_amended "log_of_negative" cfgC6w "masses.mass_200crit" "Solar_Mass"
    ⟨-5, some "Solar_Mass"⟩ ⟨100, some "Solar_Mass"⟩ rfl rfl rfl rfl
    (by norm_num) (by decide)

/-- C7 (counterexample): two entries with different names but the same
unknown type produce literally the same error value: the error lists the
valid enumeration but carries neither the entry name nor the offending key
(its message is built from the type value and valid_plot_types only). -/
theorem c7_counterexample :
    VelociraptorPlot.init "entry_a" cfgC7 = VelociraptorPlot.init "entry_b" cfgC7 ∧
    VelociraptorPlot.init "entry_a" cfgC7 =
      .error (.unknownPlotType "tree" valid_plot_types) :=
  ⟨rfl, rfl⟩

/-- C7 (amended): an entry whose type value is outside the valid enumeration
fails with an error carrying the offending value and the valid enumeration;
the error does not carry the entry name or the configuration key. -/
theorem c7_amended :
    ∀ (fn : String) (d : PlotData),
    d.type.getD "scatter" ∉ valid_plot_types →
    VelociraptorPlot.init fn d =
      .error (.unknownPlotType (d.type.getD "scatter") valid_plot_types) := by
  intro fn d h
  unfold VelociraptorPlot.init parse_data
  simp only [mkInitial]
  rw [if_neg h]

/-- C7 (witness): the amended theorem applied to a concrete entry of type
heatmap. -/
theorem c7_witness :
    VelociraptorPlot.init "unknown_type_plot" cfgC7w =
      .error (.unknownPlotType "heatmap" valid_plot_types) :=
  c7_amended "unknown_type_plot" cfgC7w (by decide)

/-- C8 (confirmed): a required axis whose quantity key (or its paired units
key, or the whole axis mapping) is missing makes the parse fail with the
AutoPlotterError whose message names that coordinate and the plot entry. -/
theorem c8_missing_axis_error :
    (∀ (fn : String) (d : PlotData),
      d.type.getD "scatter" ∈ valid_plot_types →
      quantity_units_of d .x = none →
      VelociraptorPlot.init fn d = .error (.missingQuantity "x" fn)) ∧
    (∀ (fn : String) (d : PlotData) (qx ux : String),
      (d.type.getD "scatter" = "scatter" ∨ d.type.getD "scatter" = "2dhistogram") →
      quantity_units_of d .x = some (qx, ux) →
      quantity_units_of d .y = none →
      VelociraptorPlot.init fn d = .error (.missingQuantity "y" fn)) :=
  ⟨fun _ _ hm hq => init_x_missing hm hq,
   fun _ _ _ _ ht hqx hqy => init_y_missing ht hqx hqy⟩

/-- C8 (witness): the theorem applied to a massfunction entry with no x
mapping, and to a scatter entry whose y mapping lacks its quantity key. -/
theorem c8_witness :
    VelociraptorPlot.init "no_x_axis" cfgC8a = .error (.missingQuantity "x" "no_x_axis") ∧
    VelociraptorPlot.init "no_y_axis" cfgC8b = .error (.missingQuantity "y" "no_y_axis") :=
  ⟨c8_missing_axis_error.1 "no_x_axis" cfgC8a (by decide) rfl,
   c8_missing_axis_error.2 "no_y_axis" cfgC8b "masses.mass_200crit" "Solar_Mass"
     (Or.inl rfl) rfl rfl⟩

/-- C9 (confirmed): omitting the type key yields plot type scatter; omitting
an axis log key yields a log-scaled axis; omitting number_of_bins on a
binned plot type yields 128 bins. -/
theorem c9_defaults :
    (∀ (fn : String) (d : PlotData) (st : VelociraptorPlot), d.type = none →
      VelociraptorPlot.init fn d = .ok st → st.plot_type = some "scatter") ∧
    (∀ (fn : String) (d : PlotData) (st : VelociraptorPlot) (c : Coord),
      VelociraptorPlot.init fn d = .ok st →
      (axis_of d c).bind AxisData.log = none → log_get c st = some true) ∧
    (∀ (fn : String) (d : PlotData) (st : VelociraptorPlot),
      (d.type = some "2dhistogram" ∨ d.type = some "massfunction") →
      d.number_of_bins = none →
      VelociraptorPlot.init fn d = .ok st → st.number_of_bins = some 128) := by
  refine ⟨?_, ?_, ?_⟩
  · intro fn d st ht h
    have ht2 : d.type.getD "scatter" = "scatter" := by rw [ht]; rfl
    rcases init_ok_scatter ht2 h with ⟨qx, ux, qy, uy, hqx, hqy, hst⟩
    rw [hst]
  · intro fn d st c h hlog
    rcases init_ok_type_cases h with ht | ht | ht
    · rcases init_ok_scatter ht h with ⟨qx, ux, qy, uy, hqx, hqy, hst⟩
      subst hst
      cases c <;> simp [log_get, log_from_data, hlog]
    · rcases init_ok_2dhistogram ht h with
        ⟨qx, ux, qy, uy, sx, ex, sy, ey, hqx, hqy, hlx, hly, hst⟩
      subst hst
      cases c <;> simp [log_get, log_from_data, hlog]
    · rcases init_ok_massfunction ht h with ⟨q, u, s, e, hq, hl, hst⟩
      subst hst
      cases c <;> simp [log_get, log_from_data, hlog]
  · intro fn d st ht hb h
    rcases ht with ht | ht
    · have ht2 : d.type.getD "scatter" = "2dhistogram" := by rw [ht]; rfl
      rcases init_ok_2dhistogram ht2 h with
        ⟨qx, ux, qy, uy, sx, ex, sy, ey, hqx, hqy, hlx, hly, hst⟩
      subst hst
      simp [hb]
    · have ht2 : d.type.getD "scatter" = "massfunction" := by rw [ht]; rfl
      rcases init_ok_massfunction ht2 h with ⟨q, u, s, e, hq, hl, hst⟩
      subst hst
      simp [hb]

/-- C9 (witness): the defaults observed on concrete entries: a typeless
entry resolves to scatter with log defaulted on its x axis, and a
massfunction entry without number_of_bins gets 128 bins. -/
theorem c9_witness :
    stC9a.plot_type = some "scatter" ∧ log_get .x stC9a = some true ∧
      stC9b.number_of_bins = some 128 :=
  ⟨c9_defaults.1 "scatter_plot" cfgC9a stC9a rfl rfl,
   c9_defaults.2.1 "scatter_plot" cfgC9a stC9a .x rfl rfl,
   c9_defaults.2.2 "mass_fn_default_bins" cfgC9b stC9b (Or.inr rfl) rfl rfl⟩

/-- C10 (confirmed): an axis mapping with a start or end key but no units
key silently loses both bounds: the KeyError of the units lookup is caught
by the handler that tolerates an absent start or end. Reachable publicly: a
massfunction y axis given start without units parses successfully with no y
limits and no diagnostic. -/
theorem c10_limit_dropped :
    (∀ (d : PlotData) (c : Coord) (ax : AxisData), axis_of d c = some ax →
      ax.units = none → limit_from_data d c = (none, none)) ∧
    (∀ (fn : String) (d : PlotData) (q u : String) (s e : UnytQuantity)
      (ay : AxisData) (v : ℚ),
      d.type.getD "scatter" = "massfunction" →
      quantity_units_of d .x = some (q, u) →
      limit_from_data d .x = (some s, some e) →
      d.y = some ay → ay.start = some v → ay.units = none →
      (VelociraptorPlot.init fn d).map (fun st => st.y_lim) = .ok (some (none, none))) := by
  constructor
  · exact fun d c ax hax hu => limit_none_of_units_none hax hu
  · intro fn d q u s e ay v ht hq hl hy hstart hu
    rw [init_massfunction_eq ht hq hl]
    show Except.ok (some (limit_from_data d .y)) = _
    rw [limit_none_of_units_none (c := .y) (by rw [show axis_of d .y = d.y from rfl, hy]) hu]

/-- C10 (witness): the theorem applied to a concrete massfunction entry
whose y mapping has start 5 and no units. -/
theorem c10_witness :
    (VelociraptorPlot.init "mass_fn_ylim" cfgC10).map (fun st => st.y_lim) =
      .ok (some (none, none)) :=
  c10_limit_dropped.2 "mass_fn_ylim" cfgC10 "masses.mass_200crit" "Solar_Mass"
    ⟨1, some "Solar_Mass"⟩ ⟨100, some "Solar_Mass"⟩ axC10y 5 rfl rfl rfl rfl rfl rfl

/-- The i-th real value of a log-scaled bin array: 10 to the linear
interpolation of the endpoint logarithms. -/
theorem mk_bins_log_eval_getD {s e : ℚ} {u : Option String} {n i : ℕ} (hi : i < n) :
    ((mk_bins true ⟨s, u⟩ ⟨e, u⟩ n).values.map RVal.eval).getD i 0 =
      (10 : ℝ) ^ (Real.logb 10 (s : ℝ) +
        (Real.logb 10 (e : ℝ) - Real.logb 10 (s : ℝ)) * ((i : ℝ) / ((n : ℝ) - 1))) := by
  simp only [mk_bins, if_true, reduceIte, logspaceE, linspaceE]
  rw [List.getD_eq_getElem?_getD, List.getElem?_map, List.getElem?_map,
    List.getElem?_map, List.getElem?_range hi]
  simp only [Option.map_some', Option.getD_some, RVal.eval]
  congr 1
  push_cast
  ring

/-- The i-th real value of a linearly scaled bin array: the linear
interpolation of the endpoints. -/
theorem mk_bins_lin_eval_getD {s e : ℚ} {u : Option String} {n i : ℕ} (hi : i < n) :
    ((mk_bins false ⟨s, u⟩ ⟨e, u⟩ n).values.map RVal.eval).getD i 0 =
      (s : ℝ) + ((e : ℝ) - (s : ℝ)) * ((i : ℝ) / ((n : ℝ) - 1)) := by
  simp only [mk_bins, Bool.false_eq_true, if_false, reduceIte, linspaceE]
  rw [List.getD_eq_getElem?_getD, List.getElem?_map, List.getElem?_map,
    List.getElem?_range hi]
  simp only [Option.map_some', Option.getD_some, RVal.eval]
  push_cast
  ring

/-- C1 (counterexample): a log-scaled massfunction entry with start 1 and
stop 100 and number_of_bins 2 stores an edge array of length 2, not 3 as the
claim requires (its values are [1, 100], not [1, 10, 100]). -/
theorem c1_counterexample :
    ((VelociraptorPlot.init "stellar_mass_function" cfgC1).map fun st =>
      st.x_bins.map fun b => b.values.length) = .ok (some 2) ∧
    ((VelociraptorPlot.init "stellar_mass_function" cfgC1).map fun st =>
      st.x_bins.map fun b => b.values.length) ≠ .ok (some 3) :=
  ⟨rfl, fun h => by
    have h2 := Option.some.inj (Except.ok.inj h)
    exact absurd h2 (by decide)⟩

/-- C1 (amended): the edge sequence of every binned plot has exactly
number_of_bins elements (not one more); geometrically spaced from lower to
upper on a log axis (so start 1, end 100, 2 bins yields [1, 100]) and
uniformly spaced otherwise (so start 0, end 10, 5 bins yields
[0, 5/2, 5, 15/2, 10]). -/
theorem c1_amended :
    (∀ (fn : String) (d : PlotData) (st : VelociraptorPlot) (xb : UnytArray),
      VelociraptorPlot.init fn d = .ok st → st.x_bins = some xb →
      xb.values.length = d.number_of_bins.getD 128) ∧
    (∀ (fn : String) (d : PlotData) (st : VelociraptorPlot) (yb : UnytArray),
      VelociraptorPlot.init fn d = .ok st → st.y_bins = some yb →
      yb.values.length = d.number_of_bins.getD 128) ∧
    ((mk_bins true ⟨1, some "Solar_Mass"⟩ ⟨100, some "Solar_Mass"⟩ 2).values.map
        RVal.eval = [1, 100]) ∧
    ((mk_bins false ⟨0, some "Mpc"⟩ ⟨10, some "Mpc"⟩ 5).values.map RVal.eval =
      [0, 5 / 2, 5, 15 / 2, 10]) ∧
    (∀ (s e : ℚ) (u : Option String) (n : ℕ), 0 < s → 0 < e → 2 ≤ n →
      (((mk_bins true ⟨s, u⟩ ⟨e, u⟩ n).values.map RVal.eval).getD 0 0 = (s : ℝ) ∧
        ((mk_bins true ⟨s, u⟩ ⟨e, u⟩ n).values.map RVal.eval).getD (n - 1) 0 = (e : ℝ) ∧
        ∀ i : ℕ, i + 1 < n →
          ((mk_bins true ⟨s, u⟩ ⟨e, u⟩ n).values.map RVal.eval).getD (i + 1) 0 =
            ((mk_bins true ⟨s, u⟩ ⟨e, u⟩ n).values.map RVal.eval).getD i 0 *
              (10 : ℝ) ^ ((Real.logb 10 (e : ℝ) - Real.logb 10 (s : ℝ)) /
                ((n : ℝ) - 1)))) ∧
    (∀ (s e : ℚ) (u : Option String) (n : ℕ), 2 ≤ n →
      (((mk_bins false ⟨s, u⟩ ⟨e, u⟩ n).values.map RVal.eval).getD 0 0 = (s : ℝ) ∧
        ((mk_bins false ⟨s, u⟩ ⟨e, u⟩ n).values.map RVal.eval).getD (n - 1) 0 = (e : ℝ) ∧
        ∀ i : ℕ, i + 1 < n →
          ((mk_bins false ⟨s, u⟩ ⟨e, u⟩ n).values.map RVal.eval).getD (i + 1) 0 -
            ((mk_bins false ⟨s, u⟩ ⟨e, u⟩ n).values.map RVal.eval).getD i 0 =
            ((e : ℝ) - (s : ℝ)) / ((n : ℝ) - 1))) := by
  have h10 : (0 : ℝ) < 10 := by norm_num
  have h100 : Real.logb 10 (100 : ℝ) = 2 := by
    rw [show (100 : ℝ) = 10 ^ (2 : ℕ) by norm_num, Real.logb_pow,
      Real.logb_self_eq_one (by norm_num : (1 : ℝ) < 10)]
    norm_num
  refine ⟨?_, ?_, ?_, ?_, ?_, ?_⟩
  · intro fn d st xb h hxb
    rcases init_ok_type_cases h with ht | ht | ht
    · rcases init_ok_scatter ht h with ⟨qx, ux, qy, uy, hqx, hqy, hst⟩
      subst hst
      exact absurd hxb (by simp)
    · rcases init_ok_2dhistogram ht h with
        ⟨qx, ux, qy, uy, sx, ex, sy, ey, hqx, hqy, hlx, hly, hst⟩
      subst hst
      rcases Option.some.inj hxb with h2
      rw [← h2, mk_bins_length]
    · rcases init_ok_massfunction ht h with ⟨q, u, s, e, hq, hl, hst⟩
      subst hst
      rcases Option.some.inj hxb with h2
      rw [← h2, mk_bins_length]
  · intro fn d st yb h hyb
    rcases init_ok_type_cases h with ht | ht | ht
    · rcases init_ok_scatter ht h with ⟨qx, ux, qy, uy, hqx, hqy, hst⟩
      subst hst
      exact absurd hyb (by simp)
    · rcases init_ok_2dhistogram ht h with
        ⟨qx, ux, qy, uy, sx, ex, sy, ey, hqx, hqy, hlx, hly, hst⟩
      subst hst
      rcases Option.some.inj hyb with h2
      rw [← h2, mk_bins_length]
    · rcases init_ok_massfunction ht h with ⟨q, u, s, e, hq, hl, hst⟩
      subst hst
      exact absurd hyb (by simp)
  · have hl1 : Real.logb 10 ((1 : ℚ) : ℝ) = 0 := by
      rw [show ((1 : ℚ) : ℝ) = (1 : ℝ) by norm_num, Real.logb_one]
    have hl100 : Real.logb 10 ((100 : ℚ) : ℝ) = 2 := by
      rw [show ((100 : ℚ) : ℝ) = (100 : ℝ) by norm_num]
      exact h100
    simp only [mk_bins, if_true, reduceIte, logspaceE, linspaceE,
      show List.range 2 = [0, 1] from rfl, List.map_cons, List.map_nil, RVal.eval]
    rw [hl1, hl100]
    simp only [List.cons.injEq, and_true]
    constructor
    · norm_num [Real.rpow_zero]
    · norm_num
  · simp only [mk_bins, Bool.false_eq_true, if_false, reduceIte, linspaceE,
      show List.range 5 = [0, 1, 2, 3, 4] from rfl, List.map_cons, List.map_nil,
      RVal.eval]
    norm_num
  · intro s e u n hs he hn
    have hne : (n : ℝ) - 1 ≠ 0 := by
      have h2 : (2 : ℝ) ≤ (n : ℝ) := by exact_mod_cast hn
      intro hc
      linarith
    refine ⟨?_, ?_, ?_⟩
    · rw [mk_bins_log_eval_getD (by omega)]
      simp only [Nat.cast_zero, zero_div, mul_zero, add_zero]
      exact Real.rpow_logb h10 (by norm_num) (by exact_mod_cast hs)
    · rw [mk_bins_log_eval_getD (by omega)]
      have hcast : ((n - 1 : ℕ) : ℝ) = (n : ℝ) - 1 := by
        have h1 : 1 ≤ n := by omega
        push_cast [h1]
        ring
      rw [hcast, div_self hne]
      rw [show Real.logb 10 (s : ℝ) +
          (Real.logb 10 (e : ℝ) - Real.logb 10 (s : ℝ)) * 1 = Real.logb 10 (e : ℝ)
        by ring]
      exact Real.rpow_logb h10 (by norm_num) (by exact_mod_cast he)
    · intro i hi
      rw [mk_bins_log_eval_getD (by omega), mk_bins_log_eval_getD (by omega),
        ← Real.rpow_add h10]
      congr 1
      push_cast
      field_simp
      ring
  · intro s e u n hn
    have hne : (n : ℝ) - 1 ≠ 0 := by
      have h2 : (2 : ℝ) ≤ (n : ℝ) := by exact_mod_cast hn
      intro hc
      linarith
    refine ⟨?_, ?_, ?_⟩
    · rw [mk_bins_lin_eval_getD (by omega)]
      simp
    · rw [mk_bins_lin_eval_getD (by omega)]
      have hcast : ((n - 1 : ℕ) : ℝ) = (n : ℝ) - 1 := by
        have h1 : 1 ≤ n := by omega
        push_cast [h1]
        ring
      rw [hcast, div_self hne]
      ring
    · intro i hi
      rw [mk_bins_lin_eval_getD (by omega), mk_bins_lin_eval_getD (by omega)]
      push_cast
      field_simp
      ring

/-- C1 (witness): the amended theorem observed concretely: a 4-bin linear
massfunction stores 4 edges, and the 3-edge log array from 1 to 100 starts
at 1, ends at 100, and steps by the constant ratio. -/
theorem c1_witness :
    binsC1w.values.length = 4 ∧
    ((mk_bins true ⟨1, some "Solar_Mass"⟩ ⟨100, some "Solar_Mass"⟩ 3).values.map
        RVal.eval).getD 0 0 = ((1 : ℚ) : ℝ) ∧
    ((mk_bins true ⟨1, some "Solar_Mass"⟩ ⟨100, some "Solar_Mass"⟩ 3).values.map
        RVal.eval).getD 2 0 = ((100 : ℚ) : ℝ) ∧
    ((mk_bins true ⟨1, some "Solar_Mass"⟩ ⟨100, some "Solar_Mass"⟩ 3).values.map
        RVal.eval).getD 1 0 =
      ((mk_bins true ⟨1, some "Solar_Mass"⟩ ⟨100, some "Solar_Mass"⟩ 3).values.map
        RVal.eval).getD 0 0 *
        (10 : ℝ) ^ ((Real.logb 10 ((100 : ℚ) : ℝ) - Real.logb 10 ((1 : ℚ) : ℝ)) /
          (((3 : ℕ) : ℝ) - 1)) :=
  ⟨c1_amended.1 "halo_masses" cfgC1w stC1w binsC1w rfl rfl,
   (c1_amended.2.2.2.2.1 1 100 (some "Solar_Mass") 3 one_pos (by norm_num)
     (by norm_num)).1,
   (c1_amended.2.2.2.2.1 1 100 (some "Solar_Mass") 3 one_pos (by norm_num)
     (by norm_num)).2.1,
   (c1_amended.2.2.2.2.1 1 100 (some "Solar_Mass") 3 one_pos (by norm_num)
     (by norm_num)).2.2 0 (by norm_num)⟩

end Velociraptor
